import Mathlib

/-!
Power save blocker (Linux backend)

Shallow embedding of `base/platform/linux/base_power_save_blocker_linux.cpp`.

The two function-local statics (`requestPath` of `PortalPreventAppSuspension`
and `lifetime` of `XCBPreventDisplaySleep`) become fields of an explicit
`State`; everything the functions hand to the outside world (D-Bus method
calls, the Wayland idle-inhibit request, `xcb_force_screen_saver`) is appended
to a log carried in the same state.  What the outside world answers (whether
the session bus can be reached, the unique name, the random value, which
windowing capabilities are present) is passed in as an explicit environment.
-/

namespace PowerSaveBlocker

/-! ## Strings -/

/-- A `Glib::ustring`: a sequence of Unicode characters, indexed by character. -/
abbrev Ustring := List Char

/-- The function `std::to_string` on an unsigned value: its decimal digits. -/
def to_string (n : Nat) : Ustring := Nat.toDigits 10 n

/-- The method `Glib::ustring::erase(i, n)`: drops `n` characters starting at `i`
(the source only ever calls it with `i = 0`, which is in range for every
string, the empty one included). -/
def erase (s : Ustring) (i n : Nat) : Ustring := s.take i ++ s.drop (i + n)

/-- The method `Glib::ustring::find(c)`: position of the first `c`; `none` stands for
`npos`. -/
def find (s : Ustring) (c : Char) : Option Nat :=
  if s.indexOf c < s.length then some (s.indexOf c) else none

/-- The method `Glib::ustring::replace(i, n, n2, c)`: the `n` characters at `i` are
replaced by `n2` copies of `c`.  A position past the end (in particular
`npos`) throws `std::out_of_range`, which is the `none` result. -/
def replace (s : Ustring) (i : Option Nat) (n n2 : Nat) (c : Char) : Option Ustring :=
  match i with
  | none => none
  | some i =>
    if i ≤ s.length then some (s.take i ++ List.replicate n2 c ++ s.drop (i + n)) else none

/-! ## The outside world -/

/-- A `QPointer<QWindow>`: a possibly null window handle. -/
abbrev WindowPtr := Option Nat

/-- A `GVariant` leaf as used in the portal calls. -/
inductive Value where
  | str (s : Ustring)
  | u32 (n : Nat)
  deriving DecidableEq, Repr

/-- One element of the parameter tuple of a D-Bus call: a leaf or an
`a{sv}` dictionary (a `std::map`, so listed in key order). -/
inductive Arg where
  | value (v : Value)
  | dict (entries : List (Ustring × Value))
  deriving DecidableEq, Repr

/-- Second argument of `xcb_force_screen_saver`. -/
inductive ScreenSaverMode where
  | XCB_SCREEN_SAVER_RESET
  | XCB_SCREEN_SAVER_ACTIVE
  deriving DecidableEq, Repr

/-- Everything the blocker asks of the system. -/
inductive Effect where
  /-- The asynchronous `connection->call(objectPath, interface, method,
  parameters, slot, busName)`, with an empty slot. -/
  | dbusCall (objectPath interface method : Ustring) (parameters : List Arg)
      (busName : Ustring)
  /-- The call `integration->preventDisplaySleep(prevent, window)`. -/
  | waylandPreventDisplaySleep (prevent : Bool) (window : WindowPtr)
  /-- The call `xcb_force_screen_saver(connection, mode)`. -/
  | xcbForceScreenSaver (connection : Nat) (mode : ScreenSaverMode)
  deriving DecidableEq, Repr

/-- The names of `base_linux_xdp_utilities.h` used by the blocker; the header
is not part of the sources at hand, so they are parameters. -/
structure XDP where
  kService : Ustring
  kObjectPath : Ustring
  kRequestInterface : Ustring
  ParentWindowID : WindowPtr → Ustring

/-- A `Gio::DBus::Connection`, as far as the blocker looks at it. -/
structure Connection where
  /-- The result of `get_unique_name()`. -/
  uniqueName : Ustring
  deriving DecidableEq, Repr

/-- What one run of `PortalPreventAppSuspension` meets. -/
structure PortalEnv where
  /-- The result of `Gio::DBus::Connection::get_sync(SESSION)`; `none`: it
  throws. -/
  bus : Option Connection
  /-- The result of `base::RandomValue<uint>()`. -/
  randomValue : Nat
  /-- Whether an exception escapes from the statement that builds the
  parameters of the `Inhibit` call (`XDP::ParentWindowID` and the variant
  constructors are not among the sources) and issues the call. -/
  inhibitRaises : Bool
  deriving DecidableEq, Repr

/-- What one run of `BlockPowerSave` / `UnblockPowerSave` meets. -/
structure Env where
  /-- Whether `WaylandIntegration::Instance()` is non-null. -/
  waylandIntegration : Bool
  /-- The result of `::Platform::IsX11()`. -/
  isX11 : Bool
  portal : PortalEnv
  deriving DecidableEq, Repr

/-- Compile-time configuration. -/
structure Build where
  /-- Whether `DESKTOP_APP_DISABLE_X11_INTEGRATION` is defined. -/
  DESKTOP_APP_DISABLE_X11_INTEGRATION : Bool
  deriving DecidableEq, Repr

/-! ## State -/

/-- Modelled from the spec: a running subscription to the Periodic Ticker
(`base::timer_each(period)`, whose code is not among the sources): its period
and the time since it last fired or was started, both in milliseconds. -/
structure Ticker where
  period : Nat
  elapsed : Nat
  deriving DecidableEq, Repr

/-- The process-wide state of the blocker. -/
structure State where
  /-- The `static Glib::ustring requestPath`. -/
  requestPath : Ustring
  /-- The `static rpl::lifetime lifetime`: the subscriptions it owns.  It
  converts to `true` exactly when it owns something, and `destroy()` empties
  it. -/
  lifetime : List Ticker
  /-- Effects issued so far, oldest first. -/
  log : List Effect
  deriving DecidableEq, Repr

/-- State at process start. -/
def State.initial : State := ⟨[], [], []⟩

/-- How a block of code is left. -/
inductive Exit where
  | returned
  | thrown
  deriving DecidableEq, Repr

/-! ## Legacy reset loop -/

/-- The constant `kResetScreenSaverTimeout = 10 * crl::time(1000)`, in
milliseconds. -/
def kResetScreenSaverTimeout : Nat := 10 * 1000

/-- The callback handed to `rpl::start_with_next`: one tick.
`connection` is `XCB::GetConnectionFromQt()`. -/
def resetScreenSaver (connection : Option Nat) (s : State) : State :=
  match connection with
  | none => s
  | some c =>
    { s with log := s.log ++ [Effect.xcbForceScreenSaver c ScreenSaverMode.XCB_SCREEN_SAVER_RESET] }

/-- The function `void XCBPreventDisplaySleep(bool prevent)`. -/
def XCBPreventDisplaySleep (prevent : Bool) (s : State) : State :=
  if !prevent then
    { s with lifetime := [] }
  else if !s.lifetime.isEmpty then
    s
  else
    { s with lifetime := s.lifetime ++ [⟨kResetScreenSaverTimeout, 0⟩] }

/-- Modelled from the spec: the Periodic Ticker behind `base::timer_each`
(declared in `base/timer_rpl.h`, which is not among the sources), "a repeating
timer abstraction that invokes a callback at a fixed interval until
cancelled".  One millisecond passes for one subscription; the flag says
whether the subscription fires at the end of it. -/
def Ticker.advance (t : Ticker) : Ticker × Bool :=
  if t.elapsed + 1 < t.period then
    ({ t with elapsed := t.elapsed + 1 }, false)
  else
    ({ t with elapsed := 0 }, true)

/-- Modelled from the spec: one millisecond passes for the whole process
(the ticker and `rpl::lifetime` are not among the sources).  Every
subscription still owned by `lifetime` advances, and each one that fires runs
the tick callback; a destroyed lifetime owns nothing, so nothing fires
("cancel the ticker; subsequent ticks never fire").  `connection` is what
`XCB::GetConnectionFromQt()` returns during this millisecond. -/
def elapseMs (connection : Option Nat) (s : State) : State :=
  (s.lifetime.map Ticker.advance).foldl
    (fun acc r => if r.2 then resetScreenSaver connection acc else acc)
    { s with lifetime := (s.lifetime.map Ticker.advance).map Prod.fst }

/-- Modelled from the spec: `n` milliseconds pass, the first of them being
millisecond `t`; `connection k` is the display connection during
millisecond `k`. -/
def elapseFrom (connection : Nat → Option Nat) (t : Nat) : Nat → State → State
  | 0, s => s
  | n + 1, s => elapseFrom connection (t + 1) n (elapseMs (connection t) s)

/-- Modelled from the spec: the first `n` milliseconds (numbered from 0)
pass. -/
def elapse (connection : Nat → Option Nat) (n : Nat) (s : State) : State :=
  elapseFrom connection 0 n s

/-! ## Portal inhibitor -/

/-- Source lines 78-86: the request object path for a unique name and a handle
token; `none` when `replace` throws. -/
def requestPathFor (uniqueName handleToken : Ustring) : Option Ustring :=
  let uniqueName := erase uniqueName 0 1
  match replace uniqueName (find uniqueName '.') 1 1 '_' with
  | none => none
  | some uniqueName =>
    some ("/org/freedesktop/portal/desktop/request/".toList
      ++ uniqueName ++ ['/'] ++ handleToken)

/-- Source lines 75-76: the handle token for a random value, a `uint`. -/
def handleTokenFor (randomValue : Nat) : Ustring :=
  "desktop_app".toList ++ to_string (randomValue % 2 ^ 32)

/-- The `Close` call of source line 62. -/
def closeCall (xdp : XDP) (requestPath : Ustring) : Effect :=
  Effect.dbusCall requestPath xdp.kRequestInterface "Close".toList [] xdp.kService

/-- The `Inhibit` call of source line 88. -/
def inhibitCall (xdp : XDP) (handleToken description : Ustring) (window : WindowPtr) :
    Effect :=
  Effect.dbusCall xdp.kObjectPath "org.freedesktop.portal.Inhibit".toList "Inhibit".toList
    [ Arg.value (Value.str (xdp.ParentWindowID window)),
      Arg.value (Value.u32 4),
      Arg.dict [ ("handle_token".toList, Value.str handleToken),
                 ("reason".toList, Value.str description) ] ]
    xdp.kService

/-- The `try` block of `PortalPreventAppSuspension`: the state it leaves and
whether it was left by an exception.  An exception does not undo what was
assigned before it. -/
def PortalPreventAppSuspension.tryBlock (xdp : XDP) (e : PortalEnv) (prevent : Bool)
    (description : Ustring) (window : WindowPtr) (s : State) : State × Exit :=
  match e.bus with
  | none => (s, Exit.thrown)
  | some connection =>
    if !prevent && !s.requestPath.isEmpty then
      ({ s with log := s.log ++ [closeCall xdp s.requestPath], requestPath := [] },
        Exit.returned)
    else if !(prevent && s.requestPath.isEmpty) then
      (s, Exit.returned)
    else
      let handleToken := handleTokenFor e.randomValue
      match requestPathFor connection.uniqueName handleToken with
      | none => (s, Exit.thrown)
      | some path =>
        let s := { s with requestPath := path }
        if e.inhibitRaises then
          (s, Exit.thrown)
        else
          ({ s with log := s.log ++ [inhibitCall xdp handleToken description window] },
            Exit.returned)

/-- The function `void PortalPreventAppSuspension(bool prevent,
const QString &description, QPointer<QWindow> window)`: the `try` block under
a catch-all handler with an empty body. -/
def PortalPreventAppSuspension (xdp : XDP) (e : PortalEnv) (prevent : Bool)
    (description : Ustring) (window : WindowPtr) (s : State) : State × Exit :=
  match PortalPreventAppSuspension.tryBlock xdp e prevent description window s with
  | (s, Exit.returned) => (s, Exit.returned)
  | (s, Exit.thrown) => (s, Exit.returned)

/-! ## Facade -/

/-- The `enum class PowerSaveBlockType`. -/
inductive PowerSaveBlockType where
  | PreventAppSuspension
  | PreventDisplaySleep
  deriving DecidableEq, Repr

/-- The function `void BlockPowerSave(PowerSaveBlockType type,
const QString &description, QPointer<QWindow> window)`.  The call of
`XCBPreventDisplaySleep` is compiled only when
`DESKTOP_APP_DISABLE_X11_INTEGRATION` is not defined. -/
def BlockPowerSave (xdp : XDP) (b : Build) (e : Env) (type : PowerSaveBlockType)
    (description : Ustring) (window : WindowPtr) (s : State) : State × Exit :=
  match type with
  | PowerSaveBlockType.PreventAppSuspension =>
    PortalPreventAppSuspension xdp e.portal true description window s
  | PowerSaveBlockType.PreventDisplaySleep =>
    if e.waylandIntegration then
      ({ s with log := s.log ++ [Effect.waylandPreventDisplaySleep true window] },
        Exit.returned)
    else if e.isX11 then
      if b.DESKTOP_APP_DISABLE_X11_INTEGRATION then
        (s, Exit.returned)
      else
        (XCBPreventDisplaySleep true s, Exit.returned)
    else
      (s, Exit.returned)

/-- The function `void UnblockPowerSave(PowerSaveBlockType type,
QPointer<QWindow> window)`; the portal call takes its default arguments. -/
def UnblockPowerSave (xdp : XDP) (b : Build) (e : Env) (type : PowerSaveBlockType)
    (window : WindowPtr) (s : State) : State × Exit :=
  match type with
  | PowerSaveBlockType.PreventAppSuspension =>
    PortalPreventAppSuspension xdp e.portal false [] none s
  | PowerSaveBlockType.PreventDisplaySleep =>
    if e.waylandIntegration then
      ({ s with log := s.log ++ [Effect.waylandPreventDisplaySleep false window] },
        Exit.returned)
    else if e.isX11 then
      if b.DESKTOP_APP_DISABLE_X11_INTEGRATION then
        (s, Exit.returned)
      else
        (XCBPreventDisplaySleep false s, Exit.returned)
    else
      (s, Exit.returned)

/-! ## Sample inputs -/

/-- Sample values for the XDP names, used to run the definitions on concrete
inputs. -/
def XDP.sample : XDP where
  kService := "org.freedesktop.portal.Desktop".toList
  kObjectPath := "/org/freedesktop/portal/desktop".toList
  kRequestInterface := "org.freedesktop.portal.Request".toList
  ParentWindowID := fun _ => []

/-- A reachable session bus that assigned the unique name `:1.23`; the random
value is 7 and nothing throws. -/
def PortalEnv.reachable : PortalEnv := ⟨some ⟨":1.23".toList⟩, 7, false⟩

/-- A session bus that cannot be reached. -/
def PortalEnv.unreachable : PortalEnv := ⟨none, 7, false⟩

/-- A reachable session bus on which the `Inhibit` call throws. -/
def PortalEnv.inhibitThrows : PortalEnv := ⟨some ⟨":1.23".toList⟩, 7, true⟩

/-! ## Reference behaviour of the reset loop -/

/-- The reset command. -/
def resetCommand (c : Nat) : Effect :=
  Effect.xcbForceScreenSaver c ScreenSaverMode.XCB_SCREEN_SAVER_RESET

/-- What a loop of the given period, started at time 0, is expected to have
issued once `ticks` periods are over: for each `k < ticks` one reset command
at the end of period `k` (the end of millisecond `period * (k + 1) - 1`),
provided a display connection is available then. -/
def expectedResets (connection : Nat → Option Nat) (period ticks : Nat) : List Effect :=
  (List.range ticks).filterMap fun k => (connection (period * (k + 1) - 1)).map resetCommand

/-! ## Auxiliary facts -/

/-- The first occurrence of `c` is found at its position. -/
theorem find_first (a b : Ustring) (c : Char) (ha : c ∉ a) :
    find (a ++ c :: b) c = some a.length := by
  have h : List.indexOf c (a ++ c :: b) = a.length := by
    rw [List.indexOf_append_of_not_mem ha, List.indexOf_cons_self]
    rfl
  unfold find
  rw [h]
  simp

/-- The request path for a name whose first `'.'` after the leading character
splits the rest into `a` and `b`. -/
theorem requestPathFor_first_dot (x : Char) (a b T : Ustring) (ha : '.' ∉ a) :
    requestPathFor (x :: (a ++ '.' :: b)) T
      = some ("/org/freedesktop/portal/desktop/request/".toList ++ a ++ '_' :: b ++ '/' :: T) := by
  have he : erase (x :: (a ++ '.' :: b)) 0 1 = a ++ '.' :: b := by
    simp [erase]
  unfold requestPathFor
  simp only [he, find_first a b '.' ha, replace]
  simp

/-- Every character of `to_string n` is a decimal digit. -/
theorem to_string_digits (n : Nat) : ∀ c ∈ to_string n, c ∈ "0123456789".toList := by
  have hd : ∀ m, m < 10 → Nat.digitChar m ∈ "0123456789".toList := by decide
  have core : ∀ fuel m ds, (∀ c ∈ ds, c ∈ "0123456789".toList) →
      ∀ c ∈ Nat.toDigitsCore 10 fuel m ds, c ∈ "0123456789".toList := by
    intro fuel
    induction fuel with
    | zero => intro m ds h; simpa [Nat.toDigitsCore] using h
    | succ k ih =>
      intro m ds h
      have hcons : ∀ c ∈ Nat.digitChar (m % 10) :: ds, c ∈ "0123456789".toList := by
        intro c hc
        rcases List.mem_cons.mp hc with rfl | hc
        · exact hd _ (Nat.mod_lt _ (by decide))
        · exact h c hc
      unfold Nat.toDigitsCore
      by_cases h0 : m / 10 = 0
      · simpa [h0] using hcons
      · simpa [h0] using ih _ _ hcons
  exact core _ _ _ (by simp)

/-- When the bus connection cannot be obtained the call changes nothing. -/
theorem portal_bus_failure (xdp : XDP) (e : PortalEnv) (prevent : Bool)
    (description : Ustring) (window : WindowPtr) (s : State) (hbus : e.bus = none) :
    PortalPreventAppSuspension xdp e prevent description window s = (s, Exit.returned) := by
  simp [PortalPreventAppSuspension, PortalPreventAppSuspension.tryBlock, hbus]

/-- Release with no stored path changes nothing. -/
theorem portal_release_inactive (xdp : XDP) (e : PortalEnv)
    (description : Ustring) (window : WindowPtr) (s : State) (h : s.requestPath = []) :
    PortalPreventAppSuspension xdp e false description window s = (s, Exit.returned) := by
  cases hbus : e.bus <;>
    simp [PortalPreventAppSuspension, PortalPreventAppSuspension.tryBlock, hbus, h]

/-- Release with a stored path, on an obtained connection: `Close`, then clear. -/
theorem portal_release_active (xdp : XDP) (e : PortalEnv) (c : Connection)
    (description : Ustring) (window : WindowPtr) (s : State) (hbus : e.bus = some c)
    (h : s.requestPath ≠ []) :
    PortalPreventAppSuspension xdp e false description window s
      = ({ s with log := s.log ++ [closeCall xdp s.requestPath], requestPath := [] },
          Exit.returned) := by
  simp [PortalPreventAppSuspension, PortalPreventAppSuspension.tryBlock, hbus, h]

/-- Prevent with a stored path changes nothing. -/
theorem portal_prevent_active (xdp : XDP) (e : PortalEnv)
    (description : Ustring) (window : WindowPtr) (s : State) (h : s.requestPath ≠ []) :
    PortalPreventAppSuspension xdp e true description window s = (s, Exit.returned) := by
  cases hbus : e.bus <;>
    simp [PortalPreventAppSuspension, PortalPreventAppSuspension.tryBlock, hbus, h]

/-- Prevent on a connection whose unique name yields no request path changes
nothing. -/
theorem portal_prevent_no_path (xdp : XDP) (e : PortalEnv) (c : Connection)
    (description : Ustring) (window : WindowPtr) (s : State) (hbus : e.bus = some c)
    (hp : requestPathFor c.uniqueName (handleTokenFor e.randomValue) = none) :
    PortalPreventAppSuspension xdp e true description window s = (s, Exit.returned) := by
  by_cases h : s.requestPath = [] <;>
    simp [PortalPreventAppSuspension, PortalPreventAppSuspension.tryBlock, hbus, h, hp]

/-- Prevent with no stored path, on an obtained connection whose unique name
yields the request path `p`. -/
theorem portal_prevent_inactive (xdp : XDP) (e : PortalEnv) (c : Connection)
    (description : Ustring) (window : WindowPtr) (s : State) (p : Ustring)
    (hbus : e.bus = some c) (h : s.requestPath = [])
    (hp : requestPathFor c.uniqueName (handleTokenFor e.randomValue) = some p) :
    PortalPreventAppSuspension xdp e true description window s
      = (if e.inhibitRaises then { s with requestPath := p }
          else { s with
            requestPath := p
            log := s.log ++ [inhibitCall xdp (handleTokenFor e.randomValue) description window] },
          Exit.returned) := by
  cases hr : e.inhibitRaises <;>
    simp [PortalPreventAppSuspension, PortalPreventAppSuspension.tryBlock, hbus, h, hp, hr]

/-- A derived request path is never empty. -/
theorem requestPathFor_ne_nil (n T p : Ustring) (h : requestPathFor n T = some p) : p ≠ [] := by
  unfold requestPathFor at h
  cases hr : replace (erase n 0 1) (find (erase n 0 1) '.') 1 1 '_' with
  | none => simp [hr] at h
  | some u =>
    simp only [hr, Option.some.injEq] at h
    subst h
    simp

/-- A unique name that starts with `':'` and contains a `'.'` yields a request
path ending in `/` and the token. -/
theorem requestPathFor_unique_name (n T : Ustring) (hcolon : n.head? = some ':')
    (hdot : '.' ∈ n) :
    ∃ u, requestPathFor n T
      = some ("/org/freedesktop/portal/desktop/request/".toList ++ u ++ '/' :: T) := by
  cases n with
  | nil => simp at hcolon
  | cons x rest =>
    simp only [List.head?_cons, Option.some.injEq] at hcolon
    subst hcolon
    have hrest : '.' ∈ rest := by
      rcases List.mem_cons.mp hdot with h | h
      · exact absurd h (by decide)
      · exact h
    obtain ⟨a, b, rfl, ha⟩ := List.eq_append_cons_of_mem hrest
    exact ⟨a ++ '_' :: b, by rw [requestPathFor_first_dot ':' a b T ha]; simp⟩

/-- Starting the reset loop from the stopped state. -/
theorem XCBPreventDisplaySleep_start (s : State) (h : s.lifetime = []) :
    XCBPreventDisplaySleep true s = { s with lifetime := [⟨kResetScreenSaverTimeout, 0⟩] } := by
  simp [XCBPreventDisplaySleep, h]

/-- Starting the reset loop while it runs changes nothing. -/
theorem XCBPreventDisplaySleep_running (s : State) (h : s.lifetime ≠ []) :
    XCBPreventDisplaySleep true s = s := by
  simp [XCBPreventDisplaySleep, h]

/-- Stopping the reset loop empties the lifetime. -/
theorem XCBPreventDisplaySleep_stop (s : State) :
    XCBPreventDisplaySleep false s = { s with lifetime := [] } := by
  simp [XCBPreventDisplaySleep]

/-- With an empty lifetime a millisecond changes nothing. -/
theorem elapseMs_stopped (c : Option Nat) (s : State) (h : s.lifetime = []) :
    elapseMs c s = s := by
  cases s
  simp_all [elapseMs]

/-- With an empty lifetime no amount of time changes anything. -/
theorem elapseFrom_stopped (connection : Nat → Option Nat) (n : Nat) :
    ∀ (t : Nat) (s : State), s.lifetime = [] → elapseFrom connection t n s = s := by
  induction n with
  | zero => intro t s _; rfl
  | succ k ih =>
    intro t s h
    simp only [elapseFrom]
    rw [elapseMs_stopped _ _ h]
    exact ih _ _ h

/-- One more millisecond at the end. -/
theorem elapseFrom_succ (connection : Nat → Option Nat) (n : Nat) :
    ∀ (t : Nat) (s : State),
      elapseFrom connection t (n + 1) s
        = elapseMs (connection (t + n)) (elapseFrom connection t n s) := by
  induction n with
  | zero => intro t s; rfl
  | succ k ih =>
    intro t s
    have h := ih (t + 1) (elapseMs (connection t) s)
    have e : t + 1 + k = t + (k + 1) := by omega
    rw [e] at h
    exact h

/-- One more millisecond at the end, counted from 0. -/
theorem elapse_succ (connection : Nat → Option Nat) (n : Nat) (s : State) :
    elapse connection (n + 1) s = elapseMs (connection n) (elapse connection n s) := by
  have h := elapseFrom_succ connection n 0 s
  simpa [elapse] using h

/-- One millisecond for a lifetime owning a single ticker. -/
theorem elapseMs_single (c : Option Nat) (s : State) (p k : Nat) (h : s.lifetime = [⟨p, k⟩]) :
    elapseMs c s
      = if k + 1 < p then { s with lifetime := [⟨p, k + 1⟩] }
        else resetScreenSaver c { s with lifetime := [⟨p, 0⟩] } := by
  by_cases hk : k + 1 < p <;> simp [elapseMs, h, Ticker.advance, hk]

/-- The expected resets of one more period. -/
theorem expectedResets_succ (connection : Nat → Option Nat) (period k : Nat) :
    expectedResets connection period (k + 1)
      = expectedResets connection period k
        ++ ((connection (period * (k + 1) - 1)).map resetCommand).toList := by
  unfold expectedResets
  rw [List.range_succ, List.filterMap_append]
  cases h : connection (period * (k + 1) - 1) <;> simp [h]

/-- Closed form of the state `n` milliseconds after a single ticker of period
10000 was started. -/
theorem elapse_running (connection : Nat → Option Nat) (s : State)
    (h : s.lifetime = [⟨10000, 0⟩]) (n : Nat) :
    elapse connection n s
      = { s with
          lifetime := [⟨10000, n % 10000⟩]
          log := s.log ++ expectedResets connection 10000 (n / 10000) } := by
  induction n with
  | zero =>
    cases s
    simp_all [elapse, elapseFrom, expectedResets]
  | succ k ih =>
    rw [elapse_succ, ih, elapseMs_single _ _ 10000 (k % 10000) rfl]
    by_cases hk : k % 10000 + 1 < 10000
    · have h1 : (k + 1) % 10000 = k % 10000 + 1 := by omega
      have h2 : (k + 1) / 10000 = k / 10000 := by omega
      simp [hk, h1, h2]
    · have h1 : (k + 1) % 10000 = 0 := by omega
      have h2 : (k + 1) / 10000 = k / 10000 + 1 := by omega
      have h3 : 10000 * (k / 10000 + 1) - 1 = k := by omega
      rw [if_neg hk, h1, h2, expectedResets_succ, h3]
      cases hc : connection k <;> simp [resetScreenSaver, resetCommand]

/-- Whether a request path can be derived does not depend on the token. -/
theorem requestPathFor_token_irrelevant (n T U : Ustring) (h : requestPathFor n T = none) :
    requestPathFor n U = none := by
  unfold requestPathFor at h ⊢
  cases hr : replace (erase n 0 1) (find (erase n 0 1) '.') 1 1 '_' with
  | none => simp [hr]
  | some u => simp [hr] at h

/-- The portal inhibitor never touches the ticker lifetime. -/
theorem portal_lifetime (xdp : XDP) (e : PortalEnv) (prevent : Bool) (description : Ustring)
    (window : WindowPtr) (s : State) :
    (PortalPreventAppSuspension xdp e prevent description window s).1.lifetime = s.lifetime := by
  cases hbus : e.bus with
  | none => rw [portal_bus_failure xdp e prevent description window s hbus]
  | some c =>
    by_cases h : s.requestPath = []
    · cases prevent with
      | false => rw [portal_release_inactive xdp e description window s h]
      | true =>
        cases hp : requestPathFor c.uniqueName (handleTokenFor e.randomValue) with
        | none => rw [portal_prevent_no_path xdp e c description window s hbus hp]
        | some p =>
          rw [portal_prevent_inactive xdp e c description window s p hbus h hp]
          cases e.inhibitRaises <;> rfl
    · cases prevent with
      | false => rw [portal_release_active xdp e c description window s hbus h]
      | true => rw [portal_prevent_active xdp e description window s h]

/-- A unique name that starts with `':'` and contains a `'.'` splits at its
first `'.'`. -/
theorem unique_name_split (n : Ustring) (hcolon : n.head? = some ':') (hdot : '.' ∈ n) :
    ∃ a b : Ustring, n = ':' :: (a ++ '.' :: b) ∧ '.' ∉ a := by
  cases n with
  | nil => simp at hcolon
  | cons x rest =>
    simp only [List.head?_cons, Option.some.injEq] at hcolon
    subst hcolon
    have hrest : '.' ∈ rest := by
      rcases List.mem_cons.mp hdot with h | h
      · exact absurd h (by decide)
      · exact h
    obtain ⟨a, b, rfl, ha⟩ := List.eq_append_cons_of_mem hrest
    exact ⟨a, b, rfl, ha⟩

/-- A handle token contains no `'/'`. -/
theorem handleTokenFor_no_slash (randomValue : Nat) : '/' ∉ handleTokenFor randomValue := by
  intro h
  unfold handleTokenFor at h
  rcases List.mem_append.mp h with h | h
  · exact absurd h (by decide)
  · exact absurd (to_string_digits _ _ h) (by decide)

/-! ## Properties of the specification -/

/-- C1: request-path derivation.  For a unique name `':' + a + '.' + b` with
no `'.'` in `a`, and any handle token `T`, the derived path is
`/org/freedesktop/portal/desktop/request/` + `a` + `_` + `b` + `/` + `T`; in
particular `:1.23` gives `/org/freedesktop/portal/desktop/request/1_23/T`; and
this is the path `PortalPreventAppSuspension(true, ...)` stores when it runs
without an active session on a bus with that unique name, `T` being the handle
token of the call. -/
theorem C1_request_path_derivation (xdp : XDP) (e : PortalEnv) (a b T description : Ustring)
    (window : WindowPtr) (s : State) (ha : '.' ∉ a) :
    requestPathFor (':' :: (a ++ '.' :: b)) T
        = some ("/org/freedesktop/portal/desktop/request/".toList ++ a ++ '_' :: b ++ '/' :: T)
    ∧ requestPathFor ":1.23".toList T
        = some ("/org/freedesktop/portal/desktop/request/1_23/".toList ++ T)
    ∧ (s.requestPath = [] → e.bus = some ⟨':' :: (a ++ '.' :: b)⟩ →
        (PortalPreventAppSuspension xdp e true description window s).1.requestPath
          = "/org/freedesktop/portal/desktop/request/".toList ++ a ++ '_' :: b
              ++ '/' :: handleTokenFor e.randomValue) := by
  refine ⟨requestPathFor_first_dot ':' a b T ha, ?_, ?_⟩
  · exact requestPathFor_first_dot ':' ['1'] ['2', '3'] T (by decide)
  · intro h hbus
    rw [portal_prevent_inactive xdp e _ description window s _ hbus h
      (requestPathFor_first_dot ':' a b _ ha)]
    cases e.inhibitRaises <;> rfl

/-- Witness of C1 at the unique name `:1.23`: the derived path for the token
`T`, and the path stored by a Prevent that draws the random value 7. -/
theorem C1_witness :
    '.' ∉ "1".toList
    ∧ requestPathFor ":1.23".toList "T".toList
        = some "/org/freedesktop/portal/desktop/request/1_23/T".toList
    ∧ (PortalPreventAppSuspension XDP.sample PortalEnv.reachable true "call".toList none
        State.initial).1.requestPath
        = "/org/freedesktop/portal/desktop/request/1_23/desktop_app7".toList :=
  ⟨by decide,
    (C1_request_path_derivation XDP.sample PortalEnv.reachable "1".toList "23".toList
      "T".toList "call".toList none State.initial (by decide)).1,
    ((C1_request_path_derivation XDP.sample PortalEnv.reachable "1".toList "23".toList
      "T".toList "call".toList none State.initial (by decide)).2.2 rfl rfl).trans
      (by decide)⟩

/-- C2: failure containment on Prevent.  When `PortalPreventAppSuspension(true,
description, window)` (which is what `BlockPowerSave` runs for
`PreventAppSuspension`) is called with no active session and the session bus
connection cannot be obtained, the call returns normally, nothing is issued
(so no `Inhibit` call), and `requestPath` is still empty: the state is
untouched.  A later Prevent on a reachable bus, whose unique name starts with
`':'` and contains a `'.'`, then stores a non-empty `requestPath`. -/
theorem C2_bus_failure_on_prevent (xdp : XDP) (b : Build) (env : Env) (description : Ustring)
    (window : WindowPtr) (s : State) (h : s.requestPath = [])
    (hbus : env.portal.bus = none) :
    BlockPowerSave xdp b env PowerSaveBlockType.PreventAppSuspension description window s
        = PortalPreventAppSuspension xdp env.portal true description window s
    ∧ (PortalPreventAppSuspension xdp env.portal true description window s).2 = Exit.returned
    ∧ (PortalPreventAppSuspension xdp env.portal true description window s).1.log = s.log
    ∧ (PortalPreventAppSuspension xdp env.portal true description window s).1.requestPath = []
    ∧ (PortalPreventAppSuspension xdp env.portal true description window s).1 = s
    ∧ ∀ (e2 : PortalEnv) (c : Connection) (description2 : Ustring) (window2 : WindowPtr),
        e2.bus = some c → c.uniqueName.head? = some ':' → '.' ∈ c.uniqueName →
        (PortalPreventAppSuspension xdp e2 true description2 window2
          (PortalPreventAppSuspension xdp env.portal true description window s).1).1.requestPath
          ≠ [] := by
  rw [portal_bus_failure xdp env.portal true description window s hbus]
  refine ⟨?_, rfl, rfl, h, rfl, ?_⟩
  · simp [BlockPowerSave, portal_bus_failure xdp env.portal true description window s hbus]
  · intro e2 c description2 window2 hbus2 hcolon hdot
    obtain ⟨u, hu⟩ := requestPathFor_unique_name c.uniqueName (handleTokenFor e2.randomValue)
      hcolon hdot
    rw [portal_prevent_inactive xdp e2 c description2 window2 s _ hbus2 h hu]
    cases e2.inhibitRaises <;> simp

/-- Witness of C2: the bus is unreachable at the first Prevent from the
initial state. -/
theorem C2_witness :
    State.initial.requestPath = [] ∧ PortalEnv.unreachable.bus = none
    ∧ (PortalPreventAppSuspension XDP.sample PortalEnv.unreachable true "call".toList none
        State.initial).1 = State.initial :=
  ⟨rfl, rfl,
    (C2_bus_failure_on_prevent XDP.sample ⟨false⟩ ⟨false, false, PortalEnv.unreachable⟩
      "call".toList none State.initial rfl rfl).2.2.2.2.1⟩

/-- C3: Prevent is idempotent.  `PortalPreventAppSuspension(true, ...)` called
while `requestPath` is non-empty returns with the state untouched: `requestPath`
is unchanged and nothing is issued (no `Inhibit` call, no second token or
session).  `XCBPreventDisplaySleep(true)` called while the lifetime owns a
ticker leaves the state untouched (no second ticker).  Hence two Prevents in a
row end in the state of one: always for the reset loop, and for the portal
whenever the bus answers the second call as it answered the first. -/
theorem C3_prevent_idempotent (xdp : XDP) (e : PortalEnv) (description : Ustring)
    (window : WindowPtr) (s t : State) (hs : s.requestPath ≠ []) (ht : t.lifetime ≠ []) :
    PortalPreventAppSuspension xdp e true description window s = (s, Exit.returned)
    ∧ XCBPreventDisplaySleep true t = t
    ∧ (∀ u : State,
        XCBPreventDisplaySleep true (XCBPreventDisplaySleep true u)
          = XCBPreventDisplaySleep true u)
    ∧ (∀ u : State, u.lifetime = [] →
        (XCBPreventDisplaySleep true (XCBPreventDisplaySleep true u)).lifetime.length = 1)
    ∧ (∀ (u : State) (e1 e2 : PortalEnv) (d1 d2 : Ustring) (w1 w2 : WindowPtr),
        e2.bus = e1.bus →
        PortalPreventAppSuspension xdp e2 true d2 w2
            (PortalPreventAppSuspension xdp e1 true d1 w1 u).1
          = PortalPreventAppSuspension xdp e1 true d1 w1 u) := by
  refine ⟨portal_prevent_active xdp e description window s hs,
    XCBPreventDisplaySleep_running t ht, ?_, ?_, ?_⟩
  · intro u
    by_cases hu : u.lifetime = []
    · rw [XCBPreventDisplaySleep_start u hu]
      exact XCBPreventDisplaySleep_running _ (by simp)
    · rw [XCBPreventDisplaySleep_running u hu, XCBPreventDisplaySleep_running u hu]
  · intro u hu
    rw [XCBPreventDisplaySleep_start u hu, XCBPreventDisplaySleep_running _ (by simp)]
    rfl
  · intro u e1 e2 d1 d2 w1 w2 hbus
    by_cases hu : u.requestPath = []
    · cases hb : e1.bus with
      | none =>
        rw [portal_bus_failure xdp e1 true d1 w1 u hb]
        exact portal_bus_failure xdp e2 true d2 w2 u (hbus.trans hb)
      | some c =>
        cases hp : requestPathFor c.uniqueName (handleTokenFor e1.randomValue) with
        | none =>
          rw [portal_prevent_no_path xdp e1 c d1 w1 u hb hp]
          exact portal_prevent_no_path xdp e2 c d2 w2 u (hbus.trans hb)
            (requestPathFor_token_irrelevant _ _ _ hp)
        | some p =>
          rw [portal_prevent_inactive xdp e1 c d1 w1 u p hb hu hp]
          have hne : p ≠ [] := requestPathFor_ne_nil _ _ _ hp
          cases e1.inhibitRaises <;>
            exact portal_prevent_active xdp e2 d2 w2 _ (by simpa using hne)
    · rw [portal_prevent_active xdp e1 d1 w1 u hu]
      exact portal_prevent_active xdp e2 d2 w2 u hu

/-- Witness of C3: a second Prevent after a successful first one, for the
portal and for the reset loop. -/
theorem C3_witness :
    (PortalPreventAppSuspension XDP.sample PortalEnv.reachable true "call".toList none
        State.initial).1.requestPath ≠ []
    ∧ (XCBPreventDisplaySleep true State.initial).lifetime ≠ []
    ∧ PortalPreventAppSuspension XDP.sample PortalEnv.reachable true "call".toList none
        (PortalPreventAppSuspension XDP.sample PortalEnv.reachable true "call".toList none
          State.initial).1
      = ((PortalPreventAppSuspension XDP.sample PortalEnv.reachable true "call".toList none
          State.initial).1, Exit.returned)
    ∧ XCBPreventDisplaySleep true (XCBPreventDisplaySleep true State.initial)
      = XCBPreventDisplaySleep true State.initial :=
  ⟨by decide, by decide,
    (C3_prevent_idempotent XDP.sample PortalEnv.reachable "call".toList none
      (PortalPreventAppSuspension XDP.sample PortalEnv.reachable true "call".toList none
        State.initial).1
      (XCBPreventDisplaySleep true State.initial) (by decide) (by decide)).1,
    (C3_prevent_idempotent XDP.sample PortalEnv.reachable "call".toList none
      (PortalPreventAppSuspension XDP.sample PortalEnv.reachable true "call".toList none
        State.initial).1
      (XCBPreventDisplaySleep true State.initial) (by decide) (by decide)).2.1⟩

/-- C4: Release without a prior Prevent is a no-op and does not error.
`PortalPreventAppSuspension(false)` (what `UnblockPowerSave` runs for
`PreventAppSuspension`) called while `requestPath` is empty returns normally
with the state untouched, so no `Close` call is issued and `requestPath` stays
empty, whether or not the bus can be reached; `XCBPreventDisplaySleep(false)`
called while no ticker runs leaves the state untouched. -/
theorem C4_release_without_prevent (xdp : XDP) (b : Build) (env : Env) (description : Ustring)
    (window : WindowPtr) (s t : State) (hs : s.requestPath = []) (ht : t.lifetime = []) :
    PortalPreventAppSuspension xdp env.portal false description window s = (s, Exit.returned)
    ∧ UnblockPowerSave xdp b env PowerSaveBlockType.PreventAppSuspension window s
        = (s, Exit.returned)
    ∧ (PortalPreventAppSuspension xdp env.portal false description window s).1.requestPath = []
    ∧ (PortalPreventAppSuspension xdp env.portal false description window s).1.log = s.log
    ∧ XCBPreventDisplaySleep false t = t
    ∧ (XCBPreventDisplaySleep false t).lifetime = [] := by
  have hp := portal_release_inactive xdp env.portal description window s hs
  have hx : XCBPreventDisplaySleep false t = t := by
    rw [XCBPreventDisplaySleep_stop, ← ht]
  refine ⟨hp, ?_, ?_, ?_, hx, ?_⟩
  · simpa [UnblockPowerSave] using portal_release_inactive xdp env.portal [] none s hs
  · rw [hp]; exact hs
  · rw [hp]
  · rw [hx]; exact ht

/-- Witness of C4: Release in the initial state, on a reachable bus. -/
theorem C4_witness :
    State.initial.requestPath = [] ∧ State.initial.lifetime = []
    ∧ PortalPreventAppSuspension XDP.sample PortalEnv.reachable false [] none State.initial
        = (State.initial, Exit.returned)
    ∧ XCBPreventDisplaySleep false State.initial = State.initial :=
  ⟨rfl, rfl,
    (C4_release_without_prevent XDP.sample ⟨false⟩ ⟨false, true, PortalEnv.reachable⟩ [] none
      State.initial State.initial rfl rfl).1,
    (C4_release_without_prevent XDP.sample ⟨false⟩ ⟨false, true, PortalEnv.reachable⟩ [] none
      State.initial State.initial rfl rfl).2.2.2.2.1⟩

/-- Counterexample to C5 as stated.  A Prevent on a reachable bus stores a
request path; when the following Release cannot obtain the bus connection the
path stays stored and no `Close` call is issued, so the state is not back at
its pre-Prevent condition.  And when it is the Prevent that cannot obtain the
connection, the following Release issues no `Close` call at all. -/
theorem C5_counterexample :
    (PortalPreventAppSuspension XDP.sample PortalEnv.unreachable false [] none
        (PortalPreventAppSuspension XDP.sample PortalEnv.reachable true "call".toList none
          State.initial).1).1.requestPath
      = "/org/freedesktop/portal/desktop/request/1_23/desktop_app7".toList
    ∧ (PortalPreventAppSuspension XDP.sample PortalEnv.unreachable false [] none
        (PortalPreventAppSuspension XDP.sample PortalEnv.reachable true "call".toList none
          State.initial).1).1.requestPath
      ≠ State.initial.requestPath
    ∧ (PortalPreventAppSuspension XDP.sample PortalEnv.unreachable false [] none
        (PortalPreventAppSuspension XDP.sample PortalEnv.reachable true "call".toList none
          State.initial).1).1.log
      = (PortalPreventAppSuspension XDP.sample PortalEnv.reachable true "call".toList none
          State.initial).1.log
    ∧ (PortalPreventAppSuspension XDP.sample PortalEnv.reachable false [] none
        (PortalPreventAppSuspension XDP.sample PortalEnv.unreachable true "call".toList none
          State.initial).1).1.log
      = [] := by
  decide

/-- C5, amended: round trip.  Starting with no active session, Prevent
followed by a Release that obtains the session bus connection returns normally
and leaves `requestPath` and the ticker lifetime as they were before the
Prevent (`requestPath` empty).  When the Prevent stored a request path, which
it does on a reachable bus whose unique name starts with `':'` and contains a
`'.'`, that Release issues exactly one call: method `Close` of the request
interface, with no parameters, on the service bus name, addressed to exactly
the stored path.  For the reset loop, `XCBPreventDisplaySleep(true)` followed by
`XCBPreventDisplaySleep(false)` leaves the lifetime empty, and the whole state
as it was when no ticker was running before. -/
theorem C5_round_trip (xdp : XDP) (e1 e2 : PortalEnv) (c2 : Connection)
    (description : Ustring) (window : WindowPtr) (s t : State)
    (hs : s.requestPath = []) (h2 : e2.bus = some c2) :
    (PortalPreventAppSuspension xdp e2 false [] none
        (PortalPreventAppSuspension xdp e1 true description window s).1).2 = Exit.returned
    ∧ (PortalPreventAppSuspension xdp e2 false [] none
        (PortalPreventAppSuspension xdp e1 true description window s).1).1.requestPath
        = s.requestPath
    ∧ (PortalPreventAppSuspension xdp e2 false [] none
        (PortalPreventAppSuspension xdp e1 true description window s).1).1.lifetime
        = s.lifetime
    ∧ ((PortalPreventAppSuspension xdp e1 true description window s).1.requestPath ≠ [] →
        (PortalPreventAppSuspension xdp e2 false [] none
          (PortalPreventAppSuspension xdp e1 true description window s).1).1.log
        = (PortalPreventAppSuspension xdp e1 true description window s).1.log
          ++ [Effect.dbusCall
                (PortalPreventAppSuspension xdp e1 true description window s).1.requestPath
                xdp.kRequestInterface "Close".toList [] xdp.kService])
    ∧ (∀ c1 : Connection, e1.bus = some c1 → c1.uniqueName.head? = some ':' →
        '.' ∈ c1.uniqueName →
        (PortalPreventAppSuspension xdp e1 true description window s).1.requestPath ≠ [])
    ∧ (XCBPreventDisplaySleep false (XCBPreventDisplaySleep true t)).lifetime = []
    ∧ (t.lifetime = [] →
        XCBPreventDisplaySleep false (XCBPreventDisplaySleep true t) = t) := by
  have hlife := portal_lifetime xdp e1 true description window s
  have hstored : ∀ c1 : Connection, e1.bus = some c1 → c1.uniqueName.head? = some ':' →
      '.' ∈ c1.uniqueName →
      (PortalPreventAppSuspension xdp e1 true description window s).1.requestPath ≠ [] := by
    intro c1 hb hcolon hdot
    obtain ⟨u, hu⟩ := requestPathFor_unique_name c1.uniqueName (handleTokenFor e1.randomValue)
      hcolon hdot
    rw [portal_prevent_inactive xdp e1 c1 description window s _ hb hs hu]
    cases e1.inhibitRaises <;> simp
  generalize (PortalPreventAppSuspension xdp e1 true description window s).1 = s1
    at hlife hstored ⊢
  refine ⟨?_, ?_, ?_, ?_, ?_, ?_, ?_⟩
  · by_cases h1 : s1.requestPath = []
    · rw [portal_release_inactive xdp e2 [] none s1 h1]
    · rw [portal_release_active xdp e2 c2 [] none s1 h2 h1]
  · by_cases h1 : s1.requestPath = []
    · rw [portal_release_inactive xdp e2 [] none s1 h1, h1, hs]
    · rw [portal_release_active xdp e2 c2 [] none s1 h2 h1, hs]
  · rw [portal_lifetime, hlife]
  · intro h1
    rw [portal_release_active xdp e2 c2 [] none s1 h2 h1]
    rfl
  · exact hstored
  · rw [XCBPreventDisplaySleep_stop]
  · intro ht
    rw [XCBPreventDisplaySleep_stop, XCBPreventDisplaySleep_start t ht]
    cases t
    simp_all

/-- Witness of C5, amended: Prevent then Release from the initial state, the
bus reachable both times.  The path is cleared again, and the Release adds
exactly the `Close` call addressed to the path the Prevent stored. -/
theorem C5_witness :
    State.initial.requestPath = [] ∧ PortalEnv.reachable.bus = some ⟨":1.23".toList⟩
    ∧ (PortalPreventAppSuspension XDP.sample PortalEnv.reachable false [] none
        (PortalPreventAppSuspension XDP.sample PortalEnv.reachable true "call".toList none
          State.initial).1).1.requestPath
        = State.initial.requestPath
    ∧ (PortalPreventAppSuspension XDP.sample PortalEnv.reachable false [] none
        (PortalPreventAppSuspension XDP.sample PortalEnv.reachable true "call".toList none
          State.initial).1).1.log
        = (PortalPreventAppSuspension XDP.sample PortalEnv.reachable true "call".toList none
            State.initial).1.log
          ++ [Effect.dbusCall
                "/org/freedesktop/portal/desktop/request/1_23/desktop_app7".toList
                "org.freedesktop.portal.Request".toList "Close".toList []
                "org.freedesktop.portal.Desktop".toList] :=
  ⟨rfl, rfl,
    (C5_round_trip XDP.sample PortalEnv.reachable PortalEnv.reachable ⟨":1.23".toList⟩
      "call".toList none State.initial State.initial rfl rfl).2.1,
    ((C5_round_trip XDP.sample PortalEnv.reachable PortalEnv.reachable ⟨":1.23".toList⟩
      "call".toList none State.initial State.initial rfl rfl).2.2.2.1 (by decide)).trans
      (by decide)⟩

/-- Counterexample to C6 as stated.  In a build with
`DESKTOP_APP_DISABLE_X11_INTEGRATION` defined, with no Wayland integration
instance and the platform being X11, `BlockPowerSave` for `PreventDisplaySleep`
returns with the state untouched, which is not the state
`XCBPreventDisplaySleep(true)` leaves: the reset loop was not started. -/
theorem C6_counterexample :
    BlockPowerSave XDP.sample ⟨true⟩ ⟨false, true, PortalEnv.reachable⟩
        PowerSaveBlockType.PreventDisplaySleep "call".toList none State.initial
      = (State.initial, Exit.returned)
    ∧ (BlockPowerSave XDP.sample ⟨true⟩ ⟨false, true, PortalEnv.reachable⟩
        PowerSaveBlockType.PreventDisplaySleep "call".toList none State.initial).1
      ≠ XCBPreventDisplaySleep true State.initial := by
  decide

/-- C6, amended: display-sleep dispatch.  `BlockPowerSave` (flag true) and
`UnblockPowerSave` (flag false) for `PreventDisplaySleep` choose the backend
from what the call itself observes.  With a Wayland integration instance, the
only effect is `integration->preventDisplaySleep(flag, window)` and the ticker
lifetime is untouched.  Without one, on X11, in a build with the X11
integration (`DESKTOP_APP_DISABLE_X11_INTEGRATION` not defined), the result is
exactly that of `XCBPreventDisplaySleep(flag)`, which issues nothing and so
never invokes the extension; in a build without the X11 integration nothing is
invoked and the state is unchanged.  Without either capability nothing is
invoked and the state is unchanged. -/
theorem C6_display_sleep_dispatch (xdp : XDP) (b : Build) (e : Env) (description : Ustring)
    (window : WindowPtr) (s : State) :
    (e.waylandIntegration = true →
      BlockPowerSave xdp b e PowerSaveBlockType.PreventDisplaySleep description window s
        = ({ s with log := s.log ++ [Effect.waylandPreventDisplaySleep true window] },
            Exit.returned)
      ∧ UnblockPowerSave xdp b e PowerSaveBlockType.PreventDisplaySleep window s
        = ({ s with log := s.log ++ [Effect.waylandPreventDisplaySleep false window] },
            Exit.returned))
    ∧ (e.waylandIntegration = false → e.isX11 = true →
        b.DESKTOP_APP_DISABLE_X11_INTEGRATION = false →
      BlockPowerSave xdp b e PowerSaveBlockType.PreventDisplaySleep description window s
        = (XCBPreventDisplaySleep true s, Exit.returned)
      ∧ UnblockPowerSave xdp b e PowerSaveBlockType.PreventDisplaySleep window s
        = (XCBPreventDisplaySleep false s, Exit.returned))
    ∧ (e.waylandIntegration = false → e.isX11 = true →
        b.DESKTOP_APP_DISABLE_X11_INTEGRATION = true →
      BlockPowerSave xdp b e PowerSaveBlockType.PreventDisplaySleep description window s
        = (s, Exit.returned)
      ∧ UnblockPowerSave xdp b e PowerSaveBlockType.PreventDisplaySleep window s
        = (s, Exit.returned))
    ∧ (e.waylandIntegration = false → e.isX11 = false →
      BlockPowerSave xdp b e PowerSaveBlockType.PreventDisplaySleep description window s
        = (s, Exit.returned)
      ∧ UnblockPowerSave xdp b e PowerSaveBlockType.PreventDisplaySleep window s
        = (s, Exit.returned))
    ∧ (∀ flag : Bool,
        (XCBPreventDisplaySleep flag s).log = s.log
        ∧ (XCBPreventDisplaySleep flag s).requestPath = s.requestPath) := by
  refine ⟨?_, ?_, ?_, ?_, ?_⟩
  · intro hw
    simp [BlockPowerSave, UnblockPowerSave, hw]
  · intro hw hx hb
    simp [BlockPowerSave, UnblockPowerSave, hw, hx, hb]
  · intro hw hx hb
    simp [BlockPowerSave, UnblockPowerSave, hw, hx, hb]
  · intro hw hx
    simp [BlockPowerSave, UnblockPowerSave, hw, hx]
  · intro flag
    cases flag
    · simp [XCBPreventDisplaySleep]
    · by_cases h : s.lifetime = [] <;> simp [XCBPreventDisplaySleep, h]

/-- Witness of C6, amended: on X11 without Wayland integration, in a build
with the X11 integration, blocking display sleep from the initial state starts
the reset loop. -/
theorem C6_witness :
    BlockPowerSave XDP.sample ⟨false⟩ ⟨false, true, PortalEnv.reachable⟩
        PowerSaveBlockType.PreventDisplaySleep "call".toList none State.initial
      = (XCBPreventDisplaySleep true State.initial, Exit.returned)
    ∧ UnblockPowerSave XDP.sample ⟨false⟩ ⟨false, true, PortalEnv.reachable⟩
        PowerSaveBlockType.PreventDisplaySleep none State.initial
      = (XCBPreventDisplaySleep false State.initial, Exit.returned) :=
  (C6_display_sleep_dispatch XDP.sample ⟨false⟩ ⟨false, true, PortalEnv.reachable⟩
    "call".toList none State.initial).2.1 rfl rfl rfl

/-- C7: Prevent postcondition on the portal backend.  When
`PortalPreventAppSuspension(true, description, window)` runs with no active
session on a reachable bus (the connection is obtained and the call goes
through without an exception) whose unique name starts with `':'` and contains
a `'.'`, it issues exactly one call: method `Inhibit` of interface
`org.freedesktop.portal.Inhibit`, with the parent-window token, the flags value
4 and a dictionary with exactly the keys `handle_token` and `reason`, the
reason being the given description and the handle token being `desktop_app`
followed by the decimal random value.  That same token, which has no `'/'` in
it, is the last segment of the request path, and the request path is stored in
`requestPath` (non-empty) when the function returns, without any reply being
looked at: it is stored just the same when the call itself throws. -/
theorem C7_prevent_postcondition (xdp : XDP) (e : PortalEnv) (c : Connection)
    (description : Ustring) (window : WindowPtr) (s : State)
    (hs : s.requestPath = []) (hbus : e.bus = some c)
    (hcolon : c.uniqueName.head? = some ':') (hdot : '.' ∈ c.uniqueName)
    (hcall : e.inhibitRaises = false) :
    ∃ a b : Ustring, c.uniqueName = ':' :: (a ++ '.' :: b) ∧ '.' ∉ a
      ∧ (PortalPreventAppSuspension xdp e true description window s).1.log
        = s.log ++
          [Effect.dbusCall xdp.kObjectPath
            "org.freedesktop.portal.Inhibit".toList "Inhibit".toList
            [ Arg.value (Value.str (xdp.ParentWindowID window)),
              Arg.value (Value.u32 4),
              Arg.dict [ ("handle_token".toList, Value.str (handleTokenFor e.randomValue)),
                         ("reason".toList, Value.str description) ] ]
            xdp.kService]
      ∧ handleTokenFor e.randomValue
          = "desktop_app".toList ++ to_string (e.randomValue % 2 ^ 32)
      ∧ '/' ∉ handleTokenFor e.randomValue
      ∧ (PortalPreventAppSuspension xdp e true description window s).1.requestPath
          = "/org/freedesktop/portal/desktop/request/".toList ++ a ++ '_' :: b
              ++ '/' :: handleTokenFor e.randomValue
      ∧ (PortalPreventAppSuspension xdp e true description window s).1.requestPath ≠ []
      ∧ (PortalPreventAppSuspension xdp e true description window s).2 = Exit.returned
      ∧ (PortalPreventAppSuspension xdp { e with inhibitRaises := true } true description
            window s).1.requestPath
          = (PortalPreventAppSuspension xdp e true description window s).1.requestPath := by
  obtain ⟨a, b, hname, ha⟩ := unique_name_split c.uniqueName hcolon hdot
  have hu := requestPathFor_first_dot ':' a b (handleTokenFor e.randomValue) ha
  rw [← hname] at hu
  have hrun := portal_prevent_inactive xdp e c description window s _ hbus hs hu
  have hrun2 := portal_prevent_inactive xdp { e with inhibitRaises := true } c description
    window s _ hbus hs hu
  rw [hcall] at hrun
  refine ⟨a, b, hname, ha, ?_, rfl, handleTokenFor_no_slash _, ?_, ?_, ?_, ?_⟩
  · rw [hrun]; rfl
  · rw [hrun]; rfl
  · rw [hrun]; simp
  · rw [hrun]
  · rw [hrun, hrun2]; rfl

/-- Witness of C7: the first Prevent from the initial state on a reachable
bus with unique name `:1.23` and random value 7. -/
theorem C7_witness :
    State.initial.requestPath = []
    ∧ PortalEnv.reachable.bus = some ⟨":1.23".toList⟩
    ∧ (":1.23".toList).head? = some ':'
    ∧ '.' ∈ ":1.23".toList
    ∧ PortalEnv.reachable.inhibitRaises = false
    ∧ ∃ a b : Ustring,
        (PortalPreventAppSuspension XDP.sample PortalEnv.reachable true "call".toList (some 5)
            State.initial).1.requestPath
          = "/org/freedesktop/portal/desktop/request/".toList ++ a ++ '_' :: b
              ++ '/' :: handleTokenFor PortalEnv.reachable.randomValue :=
  ⟨rfl, rfl, rfl, by decide, rfl,
    (C7_prevent_postcondition XDP.sample PortalEnv.reachable ⟨":1.23".toList⟩ "call".toList
      (some 5) State.initial rfl rfl rfl (by decide) rfl).imp
      fun _ h => h.imp fun _ h => h.2.2.2.2.2.1⟩

/-- C8: legacy reset loop cadence.  The period is 10 seconds
(`kResetScreenSaverTimeout` is 10000 ms) and `XCBPreventDisplaySleep(true)`
from the stopped state leaves exactly one ticker of that period.  A tick
issues exactly one reset command when a display connection is available and
nothing when it is not.  While the loop runs, the log grows only at the end of
each 10000th millisecond, by the tick of that moment, so that after `n`
milliseconds exactly the ticks of the `n / 10000` elapsed periods have been
issued, and the loop is still running.  After `XCBPreventDisplaySleep(false)`,
however much time passes, the state does not change: nothing is issued. -/
theorem C8_legacy_loop_cadence (connection : Nat → Option Nat) (n : Nat) (s r : State)
    (hs : s.lifetime = []) :
    kResetScreenSaverTimeout = 10000
    ∧ (XCBPreventDisplaySleep true s).lifetime = [⟨10000, 0⟩]
    ∧ (∀ c : Nat,
        resetScreenSaver (some c) r
          = { r with
              log := r.log
                ++ [Effect.xcbForceScreenSaver c ScreenSaverMode.XCB_SCREEN_SAVER_RESET] })
    ∧ resetScreenSaver none r = r
    ∧ (elapse connection (n + 1) (XCBPreventDisplaySleep true s)).log
        = (elapse connection n (XCBPreventDisplaySleep true s)).log
          ++ (if (n + 1) % 10000 = 0 then ((connection n).map resetCommand).toList else [])
    ∧ (elapse connection n (XCBPreventDisplaySleep true s)).log
        = s.log ++ expectedResets connection 10000 (n / 10000)
    ∧ (elapse connection n (XCBPreventDisplaySleep true s)).lifetime.length = 1
    ∧ elapse connection n (XCBPreventDisplaySleep false r) = XCBPreventDisplaySleep false r
    ∧ (elapse connection n (XCBPreventDisplaySleep false r)).log = r.log := by
  have hstart : (XCBPreventDisplaySleep true s).lifetime = [⟨10000, 0⟩] := by
    rw [XCBPreventDisplaySleep_start s hs]; rfl
  have hlog : (XCBPreventDisplaySleep true s).log = s.log := by
    rw [XCBPreventDisplaySleep_start s hs]
  have hstop : elapse connection n (XCBPreventDisplaySleep false r)
      = XCBPreventDisplaySleep false r :=
    elapseFrom_stopped connection n 0 _ (by rw [XCBPreventDisplaySleep_stop])
  refine ⟨rfl, hstart, fun c => rfl, rfl, ?_, ?_, ?_, hstop, ?_⟩
  · rw [elapse_running connection _ hstart (n + 1), elapse_running connection _ hstart n]
    by_cases hk : (n + 1) % 10000 = 0
    · have h2 : (n + 1) / 10000 = n / 10000 + 1 := by omega
      have h3 : 10000 * (n / 10000 + 1) - 1 = n := by omega
      simp [hk, h2, expectedResets_succ, h3]
    · have h2 : (n + 1) / 10000 = n / 10000 := by omega
      simp [hk, h2]
  · rw [elapse_running connection _ hstart n, hlog]
  · rw [elapse_running connection _ hstart n]; rfl
  · rw [hstop, XCBPreventDisplaySleep_stop]

/-- Witness of C8: 25 seconds after the loop was started from the initial
state, with a display connection available throughout, two resets were
issued. -/
theorem C8_witness :
    State.initial.lifetime = []
    ∧ (elapse (fun _ => some 1) 25000 (XCBPreventDisplaySleep true State.initial)).log
      = [resetCommand 1, resetCommand 1] :=
  ⟨rfl,
    (C8_legacy_loop_cadence (fun _ => some 1) 25000 State.initial State.initial
      rfl).2.2.2.2.2.1.trans (by decide)⟩

/-- C9: no rollback when the `Inhibit` call fails.  When
`PortalPreventAppSuspension(true, ...)` runs with no active session, obtains
the bus connection and computes the request path `p`, and building or issuing
the `Inhibit` call then throws, the `try` block is left by the exception with
`requestPath` already set to `p`, the function returns normally with
`requestPath = p` (non-empty) and with nothing issued.  A Prevent that follows
is a no-op issuing nothing, whatever it meets, and the session stays recorded
until a Release on a reachable bus sends `Close` to `p` and clears it. -/
theorem C9_no_rollback_on_inhibit_failure (xdp : XDP) (e : PortalEnv) (c : Connection)
    (description : Ustring) (window : WindowPtr) (s : State) (p : Ustring)
    (hs : s.requestPath = []) (hbus : e.bus = some c)
    (hp : requestPathFor c.uniqueName (handleTokenFor e.randomValue) = some p)
    (hr : e.inhibitRaises = true) :
    PortalPreventAppSuspension.tryBlock xdp e true description window s
        = ({ s with requestPath := p }, Exit.thrown)
    ∧ PortalPreventAppSuspension xdp e true description window s
        = ({ s with requestPath := p }, Exit.returned)
    ∧ (PortalPreventAppSuspension xdp e true description window s).1.requestPath ≠ []
    ∧ (PortalPreventAppSuspension xdp e true description window s).1.log = s.log
    ∧ (∀ (e2 : PortalEnv) (d2 : Ustring) (w2 : WindowPtr),
        PortalPreventAppSuspension xdp e2 true d2 w2
            (PortalPreventAppSuspension xdp e true description window s).1
          = ((PortalPreventAppSuspension xdp e true description window s).1, Exit.returned))
    ∧ (∀ (e2 : PortalEnv) (c2 : Connection) (d2 : Ustring) (w2 : WindowPtr),
        e2.bus = some c2 →
        PortalPreventAppSuspension xdp e2 false d2 w2
            (PortalPreventAppSuspension xdp e true description window s).1
          = ({ s with
                log := s.log
                  ++ [Effect.dbusCall p xdp.kRequestInterface "Close".toList [] xdp.kService]
                requestPath := [] },
              Exit.returned)) := by
  have hne : p ≠ [] := requestPathFor_ne_nil _ _ _ hp
  have hrun : PortalPreventAppSuspension xdp e true description window s
      = ({ s with requestPath := p }, Exit.returned) := by
    rw [portal_prevent_inactive xdp e c description window s p hbus hs hp, hr]
    rfl
  refine ⟨?_, hrun, ?_, ?_, ?_, ?_⟩
  · simp [PortalPreventAppSuspension.tryBlock, hbus, hs, hp, hr]
  · rw [hrun]; exact hne
  · rw [hrun]
  · intro e2 d2 w2
    rw [hrun]
    exact portal_prevent_active xdp e2 d2 w2 _ hne
  · intro e2 c2 d2 w2 h2
    rw [hrun]
    exact portal_release_active xdp e2 c2 d2 w2 _ h2 hne

/-- Witness of C9: the `Inhibit` call throws on the first Prevent from the
initial state. -/
theorem C9_witness :
    State.initial.requestPath = []
    ∧ PortalEnv.inhibitThrows.bus = some ⟨":1.23".toList⟩
    ∧ requestPathFor ":1.23".toList (handleTokenFor 7)
        = some "/org/freedesktop/portal/desktop/request/1_23/desktop_app7".toList
    ∧ PortalEnv.inhibitThrows.inhibitRaises = true
    ∧ PortalPreventAppSuspension XDP.sample PortalEnv.inhibitThrows true "call".toList none
        State.initial
      = ({ State.initial with
            requestPath :=
              "/org/freedesktop/portal/desktop/request/1_23/desktop_app7".toList },
          Exit.returned) :=
  ⟨rfl, rfl, by decide, rfl,
    (C9_no_rollback_on_inhibit_failure XDP.sample PortalEnv.inhibitThrows ⟨":1.23".toList⟩
      "call".toList none State.initial _ rfl rfl (by decide) rfl).2.1⟩

/-- C10: Release is atomic under bus failure.  When
`PortalPreventAppSuspension(false)` runs with a session active (`requestPath`
non-empty) and the bus connection cannot be obtained, the `try` block is left
by the exception, the function returns normally, and the state is untouched:
no `Close` call is issued and `requestPath` is still the stored path.  A later
Release on a reachable bus issues exactly one call, method `Close` of the
request interface, with no parameters, on the service bus name, addressed to
that same stored path, and clears `requestPath`. -/
theorem C10_release_atomic_under_bus_failure (xdp : XDP) (e : PortalEnv)
    (description : Ustring) (window : WindowPtr) (s : State)
    (hs : s.requestPath ≠ []) (hbus : e.bus = none) :
    PortalPreventAppSuspension.tryBlock xdp e false description window s = (s, Exit.thrown)
    ∧ PortalPreventAppSuspension xdp e false description window s = (s, Exit.returned)
    ∧ (PortalPreventAppSuspension xdp e false description window s).1.requestPath
        = s.requestPath
    ∧ (PortalPreventAppSuspension xdp e false description window s).1.log = s.log
    ∧ (∀ (e2 : PortalEnv) (c2 : Connection) (d2 : Ustring) (w2 : WindowPtr),
        e2.bus = some c2 →
        PortalPreventAppSuspension xdp e2 false d2 w2
            (PortalPreventAppSuspension xdp e false description window s).1
          = ({ s with
                log := s.log
                  ++ [Effect.dbusCall s.requestPath xdp.kRequestInterface "Close".toList []
                        xdp.kService]
                requestPath := [] },
              Exit.returned)) := by
  have hrun := portal_bus_failure xdp e false description window s hbus
  refine ⟨?_, hrun, ?_, ?_, ?_⟩
  · simp [PortalPreventAppSuspension.tryBlock, hbus]
  · rw [hrun]
  · rw [hrun]
  · intro e2 c2 d2 w2 h2
    rw [hrun]
    exact portal_release_active xdp e2 c2 d2 w2 s h2 hs

/-- Witness of C10: Release on an unreachable bus after a successful Prevent
changes nothing, and the Release after it, on a reachable bus, adds exactly
the `Close` call addressed to the path that Prevent stored. -/
theorem C10_witness :
    (PortalPreventAppSuspension XDP.sample PortalEnv.reachable true "call".toList none
        State.initial).1.requestPath ≠ []
    ∧ PortalEnv.unreachable.bus = none
    ∧ PortalPreventAppSuspension XDP.sample PortalEnv.unreachable false [] none
        (PortalPreventAppSuspension XDP.sample PortalEnv.reachable true "call".toList none
          State.initial).1
      = ((PortalPreventAppSuspension XDP.sample PortalEnv.reachable true "call".toList none
          State.initial).1, Exit.returned)
    ∧ (PortalPreventAppSuspension XDP.sample PortalEnv.reachable false [] none
        (PortalPreventAppSuspension XDP.sample PortalEnv.unreachable false [] none
          (PortalPreventAppSuspension XDP.sample PortalEnv.reachable true "call".toList none
            State.initial).1).1).1.log
      = (PortalPreventAppSuspension XDP.sample PortalEnv.reachable true "call".toList none
          State.initial).1.log
        ++ [Effect.dbusCall
              "/org/freedesktop/portal/desktop/request/1_23/desktop_app7".toList
              "org.freedesktop.portal.Request".toList "Close".toList []
              "org.freedesktop.portal.Desktop".toList] :=
  ⟨by decide, rfl,
    (C10_release_atomic_under_bus_failure XDP.sample PortalEnv.unreachable [] none
      (PortalPreventAppSuspension XDP.sample PortalEnv.reachable true "call".toList none
        State.initial).1 (by decide) rfl).2.1,
    (congrArg (fun r => r.1.log)
      ((C10_release_atomic_under_bus_failure XDP.sample PortalEnv.unreachable [] none
        (PortalPreventAppSuspension XDP.sample PortalEnv.reachable true "call".toList none
          State.initial).1 (by decide) rfl).2.2.2.2
        PortalEnv.reachable ⟨":1.23".toList⟩ [] none rfl)).trans (by decide)⟩

end PowerSaveBlocker
